/-
  Verification development for the Refactoring-Swarm repository.

  Python strings are modelled as lists of characters (`PyStr`), Python `None`
  as `Option.none`, raised exceptions as `Except.error`, and the file system /
  external collaborators (LLM calls, subprocess runs) as explicit inputs.
-/
import Mathlib

namespace RefactoringSwarm

/-- Python strings, modelled as character lists so that the prefix
    comparisons done by the sandbox check can be reasoned about directly. -/
abbrev PyStr := List Char

/-- Character list of a Lean string literal. -/
def pystr (s : String) : PyStr := s.data

/-! ## src/tools/files.py -/

/-- Exceptions raised by `validate_sandbox_path`:
    `PermissionError` on a sandbox violation, `ValueError` when no sandbox
    directory has been configured. -/
inductive SandboxError where
  | permissionError (msg : PyStr)
  | valueError (msg : PyStr)
deriving DecidableEq

/-- Message of the `PermissionError` raised on a sandbox violation
    (files.py lines 45-49; the f-string interpolating the three paths). -/
def sandboxViolationMsg (file_path resolved_path resolved_sandbox : PyStr) : PyStr :=
  pystr "SANDBOX VIOLATION: Access denied. Path '" ++ file_path ++
  pystr "' resolves to '" ++ resolved_path ++
  pystr "' which is outside the sandbox '" ++ resolved_sandbox ++ pystr "'."

/-- Message of the `ValueError` raised when the sandbox is unconfigured. -/
def notConfiguredMsg : PyStr :=
  pystr "Sandbox directory not configured. Call set_sandbox_dir() first."

/-- `validate_sandbox_path` (files.py lines 18-51).

    `realpath` models `os.path.realpath` (symlink resolution / absolutisation
    by the operating system). `sandboxGlobal` is the module-level
    `_SANDBOX_DIR` (already realpath-ed by `set_sandbox_dir`); the Python
    expression `sandbox_dir or _SANDBOX_DIR` treats both `None` and the empty
    string as falsy. `os.sep` is the POSIX separator. -/
def validate_sandbox_path (realpath : PyStr → PyStr) (sandboxGlobal : Option PyStr)
    (file_path : PyStr) (sandbox_dir : Option PyStr) : Except SandboxError PyStr :=
  let effective : Option PyStr :=
    match sandbox_dir with
    | some s => if s == [] then sandboxGlobal else some s
    | none => sandboxGlobal
  match effective with
  | none => .error (.valueError notConfiguredMsg)
  | some eff =>
    let resolved_path := realpath file_path
    let resolved_sandbox := realpath eff
    if (resolved_sandbox ++ ['/']).isPrefixOf resolved_path || resolved_path == resolved_sandbox
    then .ok resolved_path
    else .error (.permissionError (sandboxViolationMsg file_path resolved_path resolved_sandbox))

/-- The file system, modelled as an association list from (resolved) paths to
    contents; the most recent write shadows earlier entries. -/
abbrev Fs := List (PyStr × PyStr)

/-- Content of a path in the modelled file system. -/
def fsGet : Fs → PyStr → Option PyStr
  | [], _ => none
  | (k, v) :: rest, p => if k == p then some v else fsGet rest p

/-- A write to the modelled file system (`open(path, 'w')` then `write`). -/
def fsSet (fs : Fs) (p c : PyStr) : Fs := (p, c) :: fs

/-- `read_file` (files.py lines 54-63): validates the path, then reads; a
    `PermissionError` is caught and converted to the in-band string
    `"Security Error: ..."`, any other exception (including the `ValueError`
    of an unconfigured sandbox and a failing `open`) to
    `"Error reading file ..."`. -/
def read_file (realpath : PyStr → PyStr) (sandboxGlobal : Option PyStr)
    (fs : Fs) (file_path : PyStr) : PyStr :=
  match validate_sandbox_path realpath sandboxGlobal file_path none with
  | .error (.permissionError m) => pystr "Security Error: " ++ m
  | .error (.valueError m) => pystr "Error reading file " ++ file_path ++ pystr ": " ++ m
  | .ok validated_path =>
    match fsGet fs validated_path with
    | some content => content
    | none => pystr "Error reading file " ++ file_path ++ pystr ": No such file or directory"

/-- `write_file` (files.py lines 66-76): validates the path, then writes;
    returns the status message and the (possibly updated) file system. -/
def write_file (realpath : PyStr → PyStr) (sandboxGlobal : Option PyStr)
    (fs : Fs) (file_path content : PyStr) : PyStr × Fs :=
  match validate_sandbox_path realpath sandboxGlobal file_path none with
  | .error (.permissionError m) => (pystr "Security Error: " ++ m, fs)
  | .error (.valueError m) =>
      (pystr "Error writing to file " ++ file_path ++ pystr ": " ++ m, fs)
  | .ok validated_path =>
      (pystr "Successfully wrote to " ++ validated_path, fsSet fs validated_path content)

/-- The write step of `FixerAgent.fix` (fixer.py lines 114-115 and 157):
    `write_file(file_path, fixed_code)` with the returned status message
    discarded, after which `fix` returns `fixed_code`. -/
def fixer_write_fix (realpath : PyStr → PyStr) (sandboxGlobal : Option PyStr)
    (fs : Fs) (file_path fixed_code : PyStr) : PyStr × Fs :=
  let r := write_file realpath sandboxGlobal fs file_path fixed_code
  (fixed_code, r.2)

/-! ## Canonical paths

    `os.path.realpath` returns an absolute path with symlinks resolved and no
    `.`/`..`/trailing-separator artifacts: `'/'` followed by `'/'`-separated
    nonempty components that contain no separator (the root itself is the
    bare `'/'`).  We model such canonical outputs as component lists. -/

/-- Components joined by the separator (`'/'.join` on the component list). -/
def joinSep : List PyStr → PyStr
  | [] => []
  | [c] => c
  | c :: c2 :: cs => c ++ '/' :: joinSep (c2 :: cs)

/-- The canonical absolute path with the given components. -/
def renderPath (cs : List PyStr) : PyStr := '/' :: joinSep cs

/-- Canonical component lists: every component is nonempty and free of the
    separator character. -/
def Canon (cs : List PyStr) : Prop := ∀ c ∈ cs, c ≠ [] ∧ '/' ∉ c

instance : DecidablePred Canon := fun cs =>
  inferInstanceAs (Decidable (∀ c ∈ cs, c ≠ [] ∧ '/' ∉ c))

/-- A canonical path `pcs` lies inside the sandbox root `rcs` (or equals it)
    when the root's components are an initial segment of the path's. -/
def insideRoot (rcs pcs : List PyStr) : Prop := rcs <+: pcs

/-- Components each followed by the separator (so `encodeComps cs` is
    `joinSep cs` with one trailing separator appended, for nonempty `cs`). -/
def encodeComps : List PyStr → PyStr
  | [] => []
  | c :: cs => c ++ '/' :: encodeComps cs

lemma encodeComps_append (a b : List PyStr) :
    encodeComps (a ++ b) = encodeComps a ++ encodeComps b := by
  induction a with
  | nil => simp [encodeComps]
  | cons c cs ih => simp [encodeComps, ih]

lemma encodeComps_eq_joinSep (cs : List PyStr) (h : cs ≠ []) :
    encodeComps cs = joinSep cs ++ ['/'] := by
  induction cs with
  | nil => exact absurd rfl h
  | cons c cs ih =>
    cases cs with
    | nil => simp [encodeComps, joinSep]
    | cons c2 cs2 =>
      rw [show encodeComps (c :: c2 :: cs2) = c ++ '/' :: encodeComps (c2 :: cs2) from rfl,
        ih (by simp), show joinSep (c :: c2 :: cs2) = c ++ '/' :: joinSep (c2 :: cs2) from rfl]
      simp

/-- Splitting at the first separator: with `r` and `p0` separator-free,
    `r ++ '/' :: x` is a string prefix of `p0 ++ '/' :: y` exactly when
    `r = p0` and `x` is a prefix of `y`. -/
lemma sepFree_block_iff (r : PyStr) :
    ∀ p0 x y : PyStr, '/' ∉ r → '/' ∉ p0 →
      ((r ++ '/' :: x) <+: (p0 ++ '/' :: y) ↔ (r = p0 ∧ x <+: y)) := by
  induction r with
  | nil =>
    intro p0 x y _ hp0
    cases p0 with
    | nil => simp
    | cons b p02 =>
      simp only [List.nil_append, List.cons_append, List.cons_prefix_cons]
      constructor
      · rintro ⟨h, -⟩
        subst h
        exact absurd (List.mem_cons_self _ _) hp0
      · rintro ⟨h, -⟩
        exact absurd h (by simp)
  | cons a r2 ih =>
    intro p0 x y hr hp0
    have hr2 : '/' ∉ r2 := fun h => hr (List.mem_cons_of_mem _ h)
    have hra : a ≠ '/' := fun h => hr (h ▸ List.mem_cons_self _ _)
    cases p0 with
    | nil =>
      simp only [List.nil_append, List.cons_append, List.cons_prefix_cons]
      constructor
      · rintro ⟨h, -⟩
        exact absurd h hra
      · rintro ⟨h, -⟩
        exact absurd h (by simp)
    | cons b p02 =>
      have hp02 : '/' ∉ p02 := fun h => hp0 (List.mem_cons_of_mem _ h)
      simp only [List.cons_append, List.cons_prefix_cons]
      rw [ih p02 x y hr2 hp02, List.cons.injEq, and_assoc]

/-- On canonical component lists, separator-encoded string prefixing
    coincides with component-list prefixing. -/
lemma encodeComps_isPre_iff (root : List PyStr) :
    ∀ p : List PyStr, Canon root → Canon p →
      (encodeComps root <+: encodeComps p ↔ root <+: p) := by
  induction root with
  | nil => intro p _ _; simp [encodeComps]
  | cons r rs ih =>
    intro p hcr hcp
    have hrsep : '/' ∉ r := (hcr r (List.mem_cons_self _ _)).2
    have hcrs : Canon rs := fun c hc => hcr c (List.mem_cons_of_mem _ hc)
    cases p with
    | nil => simp [encodeComps]
    | cons p0 ps =>
      have hp0sep : '/' ∉ p0 := (hcp p0 (List.mem_cons_self _ _)).2
      have hcps : Canon ps := fun c hc => hcp c (List.mem_cons_of_mem _ hc)
      show (r ++ '/' :: encodeComps rs) <+: (p0 ++ '/' :: encodeComps ps) ↔ _
      rw [sepFree_block_iff r p0 _ _ hrsep hp0sep, ih ps hcrs hcps, List.cons_prefix_cons]

lemma encodeComps_inj (root p : List PyStr) (hcr : Canon root) (hcp : Canon p)
    (h : encodeComps root = encodeComps p) : root = p := by
  have h1 : root <+: p := (encodeComps_isPre_iff root p hcr hcp).mp (by rw [h])
  have h2 : p <+: root := (encodeComps_isPre_iff p root hcp hcr).mp (by rw [h])
  exact h1.eq_of_length (Nat.le_antisymm h1.length_le h2.length_le)

lemma joinSep_ne_nil (p0 : PyStr) (ps : List PyStr) (h : p0 ≠ []) :
    joinSep (p0 :: ps) ≠ [] := by
  cases ps with
  | nil => simpa [joinSep] using h
  | cons p2 ps2 => simp [joinSep, h]

/-- On canonical component lists, `joinSep` is injective. -/
lemma joinSep_eq_iff (root p : List PyStr) (hcr : Canon root) (hcp : Canon p) :
    joinSep root = joinSep p ↔ root = p := by
  constructor
  · intro h
    cases root with
    | nil =>
      cases p with
      | nil => rfl
      | cons p0 ps =>
        exact absurd h.symm (joinSep_ne_nil p0 ps (hcp p0 (List.mem_cons_self _ _)).1)
    | cons r rs =>
      cases p with
      | nil =>
        exact absurd h (joinSep_ne_nil r rs (hcr r (List.mem_cons_self _ _)).1)
      | cons p0 ps =>
        apply encodeComps_inj _ _ hcr hcp
        rw [encodeComps_eq_joinSep _ (by simp), encodeComps_eq_joinSep _ (by simp), h]
  · rintro rfl
    rfl

/-- The separator-terminated encoding of a nonempty canonical root is a
    string prefix of `joinSep p` exactly when the root is a proper initial
    segment of `p`. -/
lemma encodeComps_isPre_joinSep_iff (root p : List PyStr) (hcr : Canon root)
    (hcp : Canon p) (hne : root ≠ []) :
    encodeComps root <+: joinSep p ↔ (root <+: p ∧ root ≠ p) := by
  cases p with
  | nil =>
    constructor
    · intro h
      rw [show joinSep [] = ([] : PyStr) from rfl, List.prefix_nil] at h
      cases root with
      | nil => exact absurd rfl hne
      | cons r rs => exact absurd h (by simp [encodeComps])
    · rintro ⟨h, -⟩
      rw [List.prefix_nil] at h
      exact absurd h hne
  | cons p0 ps =>
    have hpne : (p0 :: ps) ≠ ([] : List PyStr) := by simp
    constructor
    · intro h
      have hext : encodeComps root <+: encodeComps (p0 :: ps) := by
        rw [encodeComps_eq_joinSep _ hpne]
        exact h.trans (List.prefix_append _ _)
      refine ⟨(encodeComps_isPre_iff root _ hcr hcp).mp hext, ?_⟩
      rintro rfl
      have hlen := h.length_le
      rw [encodeComps_eq_joinSep _ hpne] at hlen
      simp at hlen
    · rintro ⟨hpre, hnee⟩
      have hext : encodeComps root <+: encodeComps (p0 :: ps) :=
        (encodeComps_isPre_iff root _ hcr hcp).mpr hpre
      have hlen : (encodeComps root).length ≤ (joinSep (p0 :: ps)).length := by
        obtain ⟨q, hq⟩ := hpre
        cases q with
        | nil => exact absurd (by rw [← hq]; simp) hnee
        | cons q0 qs =>
          have e1 : encodeComps (p0 :: ps) = joinSep (p0 :: ps) ++ ['/'] :=
            encodeComps_eq_joinSep _ hpne
          have e2 : encodeComps (p0 :: ps) = encodeComps root ++ encodeComps (q0 :: qs) := by
            rw [← hq, encodeComps_append]
          have e3 : 1 ≤ (encodeComps (q0 :: qs)).length := by
            simp only [encodeComps, List.length_append, List.length_cons]
            omega
          have e4 := congrArg List.length e1
          rw [e2] at e4
          simp only [List.length_append, List.length_cons, List.length_nil] at e4
          omega
      exact List.prefix_of_prefix_length_le hext
        (by rw [encodeComps_eq_joinSep _ hpne]; exact List.prefix_append _ _) hlen

/-- The Boolean check performed by `validate_sandbox_path`, expressed on
    canonical component lists with a nonempty root: it holds exactly when the
    path lies inside the root. -/
lemma renderPath_check_iff (root p : List PyStr) (hcr : Canon root) (hcp : Canon p)
    (hne : root ≠ []) :
    (((renderPath root ++ ['/']).isPrefixOf (renderPath p)
        || renderPath p == renderPath root) = true ↔ insideRoot root p) := by
  have h1 : renderPath root ++ ['/'] = '/' :: encodeComps root := by
    rw [renderPath, encodeComps_eq_joinSep root hne]
    rfl
  rw [Bool.or_eq_true, List.isPrefixOf_iff_prefix, beq_iff_eq, h1]
  show ('/' :: encodeComps root <+: '/' :: joinSep p ∨ '/' :: joinSep p = '/' :: joinSep root)
    ↔ insideRoot root p
  simp only [List.cons_prefix_cons, List.cons.injEq, eq_self_iff_true, true_and]
  rw [encodeComps_isPre_joinSep_iff root p hcr hcp hne, joinSep_eq_iff p root hcp hcr]
  unfold insideRoot
  constructor
  · rintro (⟨h, -⟩ | rfl)
    · exact h
    · exact List.prefix_rfl
  · intro h
    by_cases he : p = root
    · exact Or.inr he
    · exact Or.inl ⟨h, fun hrr => he hrr.symm⟩

/-! ## src/tools/testing.py -/

/-- Result of the `subprocess.run` pytest invocation. -/
structure SubprocessResult where
  returncode : Int
  stdout : PyStr
  stderr : PyStr
deriving DecidableEq

/-- Scanner for non-overlapping occurrences of a literal pattern; the fuel
    (instantiated with the scanned string's length) only makes the recursion
    structural and never runs out. -/
def countSubstrFuel (pat : PyStr) : Nat → PyStr → Nat
  | 0, _ => 0
  | _ + 1, [] => 0
  | fuel + 1, c :: rest =>
    if pat ≠ [] ∧ pat.isPrefixOf (c :: rest) then
      1 + countSubstrFuel pat fuel ((c :: rest).drop pat.length)
    else
      countSubstrFuel pat fuel rest

/-- Number of non-overlapping occurrences of a literal pattern
    (`len(re.findall(pat, s))` for the literal markers counted by
    `run_pytest`). -/
def countSubstr (pat s : PyStr) : Nat := countSubstrFuel pat s.length s

/-- The dict returned by `run_pytest` (testing.py lines 57-65). The
    `duration` and `error_details` fields (a parsed float and a regex
    excerpt) are read by no other code in the repository and by no claim and
    are omitted. `error_type` models `results.get("error_type")`:
    `run_pytest` never sets that key, so it is `none` until
    `JudgeAgent.evaluate` adds it. -/
structure PytestResult where
  success : Bool
  output : PyStr
  tests_passed : Nat
  tests_failed : Nat
  tests_error : Nat
  error_type : Option PyStr
deriving DecidableEq

/-- `run_pytest` (testing.py lines 6-86): `none` models a
    `subprocess.TimeoutExpired` escape (the 120-second kill), `some r` a
    completed subprocess with its exit code and captured output. -/
def run_pytest : Option SubprocessResult → PytestResult
  | none =>
    { success := false
      output := pystr "ERROR: Tests timed out after 120 seconds"
      tests_passed := 0
      tests_failed := 0
      tests_error := 1
      error_type := none }
  | some r =>
    let output0 := r.stdout ++ pystr "\n" ++ r.stderr
    let success0 := r.returncode == 0
    let output := if r.returncode == 5 then
        output0 ++
          pystr "\n\nNO TESTS FOUND: Pytest exit code 5. functionality needs to be tested."
      else output0
    let success := if r.returncode == 5 then false else success0
    { success := success
      output := output
      tests_passed := countSubstr (pystr "PASSED") output
      tests_failed := countSubstr (pystr "FAILED") output
      tests_error := countSubstr (pystr "ERROR") output
      error_type := none }

/-! ## src/agents/judge.py -/

/-- `ENVIRONMENT_ERROR_PATTERNS` (judge.py lines 7-16). -/
def ENVIRONMENT_ERROR_PATTERNS : List PyStr :=
  [pystr "WinError", pystr "FileNotFoundError", pystr "No module named",
   pystr "command not found", pystr "not recognized as an internal",
   pystr "not found", pystr "TIMEOUT", pystr "ENVIRONMENT_ERROR"]

/-- Python substring containment `pat in s`. -/
def hasSubstr (pat : PyStr) : PyStr → Bool
  | [] => pat.isPrefixOf []
  | c :: rest => pat.isPrefixOf (c :: rest) || hasSubstr pat rest

lemma hasSubstr_iff (pat s : PyStr) : hasSubstr pat s = true ↔ pat <:+: s := by
  induction s with
  | nil => simp [hasSubstr, List.isPrefixOf_iff_prefix]
  | cons c rest ih =>
    rw [List.infix_cons_iff]
    simp [hasSubstr, List.isPrefixOf_iff_prefix, ih]

/-- The pattern-scanning fallback of `JudgeAgent._classify_failure`
    (judge.py lines 34-40): the first matching pattern yields
    `ENVIRONMENT_ERROR`, otherwise `CODE_ERROR`. -/
def fallbackClassify (output : PyStr) : PyStr :=
  if ENVIRONMENT_ERROR_PATTERNS.any (fun pat => hasSubstr pat output)
  then pystr "ENVIRONMENT_ERROR"
  else pystr "CODE_ERROR"

/-- `JudgeAgent._classify_failure` (judge.py lines 23-40): a structured
    `error_type` of `ENVIRONMENT_ERROR` or `TIMEOUT` is returned directly,
    otherwise the raw output is pattern-matched. -/
def classify_failure (results : PytestResult) : PyStr :=
  match results.error_type with
  | some t =>
    if t == pystr "ENVIRONMENT_ERROR" || t == pystr "TIMEOUT" then t
    else fallbackClassify results.output
  | none => fallbackClassify results.output

/-- `JudgeAgent.evaluate` (judge.py lines 42-76): runs pytest, classifies a
    failure, and returns the results with `error_type` added (the mandatory
    logging call is a side effect on the log store, modelled separately). -/
def evaluate (sub : Option SubprocessResult) : PytestResult :=
  let results := run_pytest sub
  if results.success then { results with error_type := none }
  else { results with error_type := some (classify_failure results) }

/-! ## src/graph.py and main.py -/

/-- The `AgentState` TypedDict (graph.py lines 15-24). `pylint_score` is a
    float in the source, informational only and read by no branch; it is
    modelled as an integer. -/
structure AgentState where
  target_file : PyStr
  current_code : PyStr
  refactoring_plan : PyStr
  pylint_score : Int
  test_results : Option PytestResult
  iterations : Nat
  max_iterations : Nat
  error_context : Option PyStr
  status : PyStr
deriving DecidableEq

/-- Result of the external `AuditorAgent.analyze` call
    (auditor.py lines 128-132). -/
structure AuditResult where
  plan : PyStr
  pylint_score : Int
  original_code : PyStr
deriving DecidableEq

/-- `auditor_node` (graph.py lines 27-38): the analyze result is the input
    `r`; the returned partial update is merged into the state. -/
def auditor_node (st : AgentState) (r : AuditResult) : AgentState :=
  { st with
    refactoring_plan := r.plan
    pylint_score := r.pylint_score
    current_code := r.original_code
    iterations := st.iterations + 1
    error_context := none }

/-- `fixer_node` (graph.py lines 40-56): the rewritten code returned by
    `FixerAgent.fix` is the input `fixed_code`. -/
def fixer_node (st : AgentState) (fixed_code : PyStr) : AgentState :=
  { st with
    current_code := fixed_code
    iterations := st.iterations + 1 }

/-- `judge_node` (graph.py lines 58-73), evaluating the pytest run `sub`. -/
def judge_node (st : AgentState) (sub : Option SubprocessResult) : AgentState :=
  let results := evaluate sub
  { st with
    test_results := some results
    status := if results.success then pystr "SUCCESS" else pystr "FAILURE"
    error_context := if results.success then none else some results.output }

/-- `check_status` (graph.py lines 76-84). -/
def check_status (st : AgentState) : PyStr :=
  if st.status == pystr "SUCCESS" then pystr "end"
  else if st.max_iterations ≤ st.iterations then pystr "end"
  else pystr "fix_again"

/-- The initial state built per target file (main.py lines 35-45), with the
    iteration budget as a parameter (main.py passes 10). -/
def initState (target : PyStr) (m : Nat) : AgentState :=
  { target_file := target
    current_code := []
    refactoring_plan := []
    pylint_score := 0
    test_results := none
    iterations := 0
    max_iterations := m
    error_context := some []
    status := pystr "START" }

/-- The graph's node pointer: entry point `auditor`, edges
    auditor to fixer to judge, and the conditional edge out of judge
    (graph.py lines 87-114). -/
inductive Node where
  | auditor
  | fixer
  | judge
  | done
deriving DecidableEq

/-- One transition of the compiled graph: each step runs the node at the
    current pointer with its external collaborator's answer (the auditor's
    analysis, the fixer's rewrite, the judge's pytest subprocess) and follows
    the corresponding edge; the conditional edge out of `judge` routes on
    `check_status`. -/
inductive GStep : Node × AgentState → Node × AgentState → Prop where
  | auditor (st : AgentState) (r : AuditResult) :
      GStep (Node.auditor, st) (Node.fixer, auditor_node st r)
  | fixer (st : AgentState) (fixed_code : PyStr) :
      GStep (Node.fixer, st) (Node.judge, fixer_node st fixed_code)
  | judge_end (st : AgentState) (sub : Option SubprocessResult)
      (h : check_status (judge_node st sub) = pystr "end") :
      GStep (Node.judge, st) (Node.done, judge_node st sub)
  | judge_loop (st : AgentState) (sub : Option SubprocessResult)
      (h : check_status (judge_node st sub) = pystr "fix_again") :
      GStep (Node.judge, st) (Node.fixer, judge_node st sub)

/-- Reachability between orchestrator configurations. -/
abbrev GReach := Relation.ReflTransGen GStep

/-! ## src/utils/logger.py -/

/-- The `ActionType` enum (logger.py lines 10-17). -/
inductive ActionType where
  | ANALYSIS
  | GENERATION
  | DEBUG
  | FIX
deriving DecidableEq

/-- String value of each `ActionType` member. -/
def ActionType.value : ActionType → PyStr
  | .ANALYSIS => pystr "CODE_ANALYSIS"
  | .GENERATION => pystr "CODE_GEN"
  | .DEBUG => pystr "DEBUG"
  | .FIX => pystr "FIX"

/-- Values stored in the `details` dict. -/
inductive DetailVal where
  | str (s : PyStr)
  | boolean (b : Bool)
  | int (n : Int)
  | null
deriving DecidableEq

/-- The `details` dict passed to `log_experiment`. -/
abbrev Details := List (PyStr × DetailVal)

/-- Python `key in details` on a dict. -/
def hasKey (details : Details) (key : PyStr) : Bool :=
  details.any (fun kv => kv.1 == key)

/-- One record of the experiment log (logger.py lines 59-68). -/
structure LogEntry where
  id : PyStr
  timestamp : PyStr
  agent : PyStr
  model : PyStr
  action : PyStr
  iteration : Option Int
  details : Details
  status : PyStr
deriving DecidableEq

/-- The parse status of `logs/experiment_data.json` before the call:
    no file, a whitespace-only file, a JSON list of records, valid JSON that
    is not a list, or text that `json.loads` rejects. -/
inductive LogContent where
  | missing
  | blank
  | jsonList (entries : List LogEntry)
  | jsonOther
  | invalid
deriving DecidableEq

/-- Exceptions escaping `log_experiment`: the explicit `ValueError`s of the
    two validation steps, and the `AttributeError` of `data.append` when the
    parsed JSON is not a list. -/
inductive LogError where
  | invalidAction
  | valueError
  | attributeError
deriving DecidableEq

/-- `log_experiment` (logger.py lines 19-85). The call either raises
    (`Except.error`) or rewrites the log file with the returned record list.
    `uuid` and `timestamp` stand for the generated `uuid.uuid4()` and
    `datetime.now()` values; the Python `action` argument may be an
    `ActionType` member (`Sum.inl`) or a plain string (`Sum.inr`). -/
def log_experiment (agent_name model_used : PyStr) (action : ActionType ⊕ PyStr)
    (details : Details) (status : PyStr) (iteration : Option Int)
    (uuid timestamp : PyStr) (file : LogContent) : Except LogError (List LogEntry) :=
  let valid_actions := [ActionType.ANALYSIS.value, ActionType.GENERATION.value,
    ActionType.DEBUG.value, ActionType.FIX.value]
  let action_res : Except LogError PyStr :=
    match action with
    | .inl a => .ok a.value
    | .inr s => if valid_actions.contains s then .ok s else .error .invalidAction
  match action_res with
  | .error e => .error e
  | .ok action_str =>
    let required_keys := [pystr "input_prompt", pystr "output_response"]
    let missing_keys := required_keys.filter (fun key => !(hasKey details key))
    if valid_actions.contains action_str && !missing_keys.isEmpty then
      .error .valueError
    else
      let entry : LogEntry :=
        { id := uuid, timestamp := timestamp, agent := agent_name,
          model := model_used, action := action_str, iteration := iteration,
          details := details, status := status }
      match file with
      | .missing => .ok [entry]
      | .blank => .ok [entry]
      | .jsonList l => .ok (l ++ [entry])
      | .invalid => .ok [entry]
      | .jsonOther => .error .attributeError

/-! ## Helper lemmas -/

lemma evaluate_success (sub : Option SubprocessResult) :
    (evaluate sub).success = (run_pytest sub).success := by
  unfold evaluate
  by_cases h : (run_pytest sub).success = true <;> simp [h]

lemma evaluate_output (sub : Option SubprocessResult) :
    (evaluate sub).output = (run_pytest sub).output := by
  unfold evaluate
  by_cases h : (run_pytest sub).success = true <;> simp [h]

lemma check_status_fix_again (st : AgentState)
    (h : check_status st = pystr "fix_again") :
    st.iterations < st.max_iterations := by
  unfold check_status at h
  split at h
  · exact absurd h (by decide)
  · split at h
    · exact absurd h (by decide)
    · omega

/-! ## Claim theorems -/

/-- C7: `run_pytest` reports success exactly when the pytest exit code is 0;
    in particular an exit code 5 run (zero tests discovered) is always
    reported with `success = false`, and a timed-out run is reported as a
    failure as well. -/
theorem run_pytest_success_only_exit_zero (r : SubprocessResult) :
    ((run_pytest (some r)).success = true ↔ r.returncode = 0) ∧
    (r.returncode = 5 → (run_pytest (some r)).success = false) ∧
    (run_pytest none).success = false := by
  refine ⟨?_, ?_, rfl⟩
  · by_cases h5 : r.returncode = 5
    · simp only [run_pytest, h5]
      norm_num
    · simp only [run_pytest]
      rw [if_neg (by simpa using h5)]
      simp
  · intro h5
    simp only [run_pytest, h5]
    norm_num

/-- C7 witness: a run that discovered zero tests (pytest exit code 5) is
    reported as a failure. -/
theorem run_pytest_success_only_exit_zero_witness :
    (run_pytest (some ⟨5, pystr "collected 0 items", []⟩)).success = false :=
  (run_pytest_success_only_exit_zero ⟨5, pystr "collected 0 items", []⟩).2.1 rfl

/-- C6: `_classify_failure` returns a structured `ENVIRONMENT_ERROR` or
    `TIMEOUT` directly; otherwise an output containing any of the eight fixed
    infrastructure signatures (in particular the substring
    "command not found") yields `ENVIRONMENT_ERROR`, and an output containing
    none of them yields `CODE_ERROR`. -/
theorem classify_failure_correct (results : PytestResult) :
    (∀ t, results.error_type = some t →
      (t = pystr "ENVIRONMENT_ERROR" ∨ t = pystr "TIMEOUT") →
      classify_failure results = t) ∧
    ((∀ t, results.error_type = some t →
        t ≠ pystr "ENVIRONMENT_ERROR" ∧ t ≠ pystr "TIMEOUT") →
      ((∀ pat ∈ ENVIRONMENT_ERROR_PATTERNS, pat <:+: results.output →
        classify_failure results = pystr "ENVIRONMENT_ERROR") ∧
       (pystr "command not found" <:+: results.output →
        classify_failure results = pystr "ENVIRONMENT_ERROR") ∧
       ((∀ pat ∈ ENVIRONMENT_ERROR_PATTERNS, ¬ pat <:+: results.output) →
        classify_failure results = pystr "CODE_ERROR"))) := by
  constructor
  · rintro t ht (rfl | rfl) <;> simp [classify_failure, ht]
  · intro hstruct
    have hfb : classify_failure results = fallbackClassify results.output := by
      cases he : results.error_type with
      | none => simp [classify_failure, he]
      | some t =>
        have hne := hstruct t he
        simp only [classify_failure, he]
        rw [if_neg]
        simp only [Bool.or_eq_true, beq_iff_eq]
        rintro (h | h)
        · exact hne.1 h
        · exact hne.2 h
    have hmatch : ∀ pat ∈ ENVIRONMENT_ERROR_PATTERNS, pat <:+: results.output →
        classify_failure results = pystr "ENVIRONMENT_ERROR" := by
      intro pat hmem hsub
      rw [hfb, fallbackClassify, if_pos]
      rw [List.any_eq_true]
      exact ⟨pat, hmem, (hasSubstr_iff _ _).mpr hsub⟩
    refine ⟨hmatch, ?_, ?_⟩
    · intro hcnf
      exact hmatch (pystr "command not found") (by simp [ENVIRONMENT_ERROR_PATTERNS]) hcnf
    · intro hnone
      rw [hfb, fallbackClassify, if_neg]
      intro hany
      rw [List.any_eq_true] at hany
      obtain ⟨pat, hmem, hsub⟩ := hany
      exact hnone pat hmem ((hasSubstr_iff _ _).mp hsub)

/-- C6 witness: an unstructured failure whose output contains
    "command not found" is classified `ENVIRONMENT_ERROR`. -/
theorem classify_failure_correct_witness :
    classify_failure
      { success := false, output := pystr "sh: 1: pytest: command not found",
        tests_passed := 0, tests_failed := 0, tests_error := 0, error_type := none } =
      pystr "ENVIRONMENT_ERROR" :=
  ((classify_failure_correct _).2 (fun t ht => Option.noConfusion ht)).2.1 (by decide)

lemma actionValue_mem_valid (a : ActionType) :
    [ActionType.ANALYSIS.value, ActionType.GENERATION.value,
      ActionType.DEBUG.value, ActionType.FIX.value].contains a.value = true := by
  cases a <;> decide

/-- C9 (amended): for the analysis, generation, debug and fix action kinds,
    `log_experiment` raises `ValueError` exactly when the `details` dict
    lacks the `input_prompt` key or the `output_response` key; only key
    presence is checked, so a record whose two fields are present (even with
    empty values) is appended to the stored list. -/
theorem log_experiment_requires_keys (agent model status uuid ts : PyStr)
    (iteration : Option Int) (a : ActionType) (details : Details)
    (l : List LogEntry) :
    (hasKey details (pystr "input_prompt") = true →
     hasKey details (pystr "output_response") = true →
     log_experiment agent model (.inl a) details status iteration uuid ts (.jsonList l) =
       .ok (l ++ [{ id := uuid, timestamp := ts, agent := agent, model := model,
                    action := a.value, iteration := iteration, details := details,
                    status := status }])) ∧
    ((hasKey details (pystr "input_prompt") = false ∨
      hasKey details (pystr "output_response") = false) →
     log_experiment agent model (.inl a) details status iteration uuid ts (.jsonList l) =
       .error .valueError) := by
  constructor
  · intro h1 h2
    simp [log_experiment, h1, h2]
  · intro h
    have hm : (List.filter (fun key => !(hasKey details key))
        [pystr "input_prompt", pystr "output_response"]).isEmpty = false := by
      rcases h with h | h
      · simp [List.filter_cons, List.filter_nil, h]
      · cases hip : hasKey details (pystr "input_prompt") <;>
          simp [List.filter_cons, List.filter_nil, h, hip]
    simp [log_experiment, hm]
    cases a <;> decide

/-- C9 witness: a record missing the `output_response` key is rejected with
    a `ValueError`, and one carrying both keys is appended. -/
theorem log_experiment_requires_keys_witness :
    log_experiment (pystr "Fixer_Agent") (pystr "gemini-2.0-flash")
      (Sum.inl ActionType.FIX) [(pystr "input_prompt", DetailVal.str (pystr "p"))]
      (pystr "SUCCESS") none (pystr "id-0") (pystr "t-0") (.jsonList []) =
      .error .valueError :=
  (log_experiment_requires_keys (pystr "Fixer_Agent") (pystr "gemini-2.0-flash")
    (pystr "SUCCESS") (pystr "id-0") (pystr "t-0") none ActionType.FIX
    [(pystr "input_prompt", DetailVal.str (pystr "p"))] []).2 (Or.inr (by decide))

/-- The details dict of the C9 counterexample: both mandatory fields are
    present but empty. -/
def detailsEmptyVals : Details :=
  [(pystr "input_prompt", DetailVal.str []), (pystr "output_response", DetailVal.str [])]

/-- C9 counterexample: a debug record whose input-summary and output-summary
    fields are present but empty is appended, not rejected, because
    `log_experiment` checks only key presence, never non-emptiness. -/
theorem log_experiment_accepts_empty_fields :
    log_experiment (pystr "Judge_Agent") (pystr "pytest-7.4.4")
      (Sum.inl ActionType.DEBUG) detailsEmptyVals (pystr "FAILURE") none
      (pystr "id-1") (pystr "t-1") (.jsonList []) =
      .ok [{ id := pystr "id-1", timestamp := pystr "t-1",
             agent := pystr "Judge_Agent", model := pystr "pytest-7.4.4",
             action := pystr "DEBUG", iteration := none,
             details := detailsEmptyVals, status := pystr "FAILURE" }] := by
  rfl

/-- C10: when the stored log file exists but its content is not valid JSON,
    `log_experiment` does not fail and does not preserve the prior content:
    it rewrites the store as the one-element list holding only the new
    record, while a parseable list is appended to. -/
theorem log_experiment_resets_corrupt_store (agent model status uuid ts : PyStr)
    (iteration : Option Int) (a : ActionType) (details : Details)
    (l : List LogEntry)
    (h1 : hasKey details (pystr "input_prompt") = true)
    (h2 : hasKey details (pystr "output_response") = true) :
    log_experiment agent model (.inl a) details status iteration uuid ts .invalid =
      .ok [{ id := uuid, timestamp := ts, agent := agent, model := model,
             action := a.value, iteration := iteration, details := details,
             status := status }] ∧
    log_experiment agent model (.inl a) details status iteration uuid ts (.jsonList l) =
      .ok (l ++ [{ id := uuid, timestamp := ts, agent := agent, model := model,
                   action := a.value, iteration := iteration, details := details,
                   status := status }]) := by
  constructor <;> simp [log_experiment, h1, h2]

/-- C10 witness: with a corrupted store, the two previously stored records
    are discarded and the rewritten store holds only the new record. -/
theorem log_experiment_resets_corrupt_store_witness :
    log_experiment (pystr "Judge_Agent") (pystr "pytest-7.4.4")
      (Sum.inl ActionType.DEBUG) detailsEmptyVals (pystr "FAILURE") none
      (pystr "id-2") (pystr "t-2") .invalid =
      .ok [{ id := pystr "id-2", timestamp := pystr "t-2",
             agent := pystr "Judge_Agent", model := pystr "pytest-7.4.4",
             action := pystr "DEBUG", iteration := none,
             details := detailsEmptyVals, status := pystr "FAILURE" }] :=
  (log_experiment_resets_corrupt_store (pystr "Judge_Agent") (pystr "pytest-7.4.4")
    (pystr "FAILURE") (pystr "id-2") (pystr "t-2") none ActionType.DEBUG
    detailsEmptyVals [] (by decide) (by decide)).1

/-- C4 (amended): for canonical realpath outputs and a configured sandbox
    root other than the bare filesystem root `/`, `validate_sandbox_path`
    fails with the sandbox-violation `PermissionError` exactly on the paths
    whose canonical form lies outside the root (sibling directories that
    merely extend the root's name have disjoint component lists and are
    rejected), and on paths whose canonical form lies inside the root (or
    equals it) it returns the canonical path, which lies inside the root. -/
theorem validate_sandbox_path_correct (realpath : PyStr → PyStr) (p root : PyStr)
    (pcs rcs : List PyStr) (hp : realpath p = renderPath pcs)
    (hroot : realpath root = renderPath rcs) (hcp : Canon pcs) (hcr : Canon rcs)
    (hne : rcs ≠ []) :
    (¬ insideRoot rcs pcs →
      validate_sandbox_path realpath (some root) p none =
        .error (.permissionError
          (sandboxViolationMsg p (renderPath pcs) (renderPath rcs)))) ∧
    (insideRoot rcs pcs →
      validate_sandbox_path realpath (some root) p none = .ok (renderPath pcs) ∧
      insideRoot rcs pcs) := by
  have hcond := renderPath_check_iff rcs pcs hcr hcp hne
  constructor
  · intro hout
    have hfalse : ((renderPath rcs ++ ['/']).isPrefixOf (renderPath pcs)
        || renderPath pcs == renderPath rcs) = false := by
      rw [Bool.eq_false_iff]
      intro hc
      exact hout (hcond.mp hc)
    simp only [validate_sandbox_path, hp, hroot]
    rw [if_neg (by simp [hfalse])]
  · intro hin
    refine ⟨?_, hin⟩
    simp only [validate_sandbox_path, hp, hroot]
    rw [if_pos (hcond.mpr hin)]

/-- C4 witness: with sandbox root `/sb`, the path `/sb/app` is accepted and
    its canonical form returned. -/
theorem validate_sandbox_path_correct_witness :
    validate_sandbox_path id (some (renderPath [pystr "sb"]))
      (renderPath [pystr "sb", pystr "app"]) none =
      .ok (renderPath [pystr "sb", pystr "app"]) :=
  ((validate_sandbox_path_correct id (renderPath [pystr "sb", pystr "app"])
      (renderPath [pystr "sb"]) [pystr "sb", pystr "app"] [pystr "sb"]
      rfl rfl (by decide) (by decide) (by decide)).2
    ⟨[pystr "app"], rfl⟩).1

/-- C4 counterexample: with the sandbox configured as the filesystem root
    `/`, the canonical path `/etc` lies inside the root, yet
    `validate_sandbox_path` rejects it: the separator-terminated comparison
    string `//` matches no canonical path. -/
theorem validate_sandbox_path_rejects_under_root_slash :
    insideRoot [] [pystr "etc"] ∧ Canon [pystr "etc"] ∧ Canon ([] : List PyStr) ∧
    validate_sandbox_path id (some (renderPath [])) (renderPath [pystr "etc"]) none =
      .error (.permissionError (sandboxViolationMsg (renderPath [pystr "etc"])
        (renderPath [pystr "etc"]) (renderPath []))) := by
  exact ⟨⟨[pystr "etc"], rfl⟩, by decide, by decide, rfl⟩

/-- C5 (amended): a sandbox violation is fatal to the triggering operation —
    no file access happens (`write_file` leaves the file system unchanged,
    `read_file` reads nothing, its result independent of the file system) —
    and the operation returns the in-band `"Security Error: ..."` string,
    distinct from `write_file`'s success message, instead of raising. -/
theorem sandbox_violation_stops_operation (realpath : PyStr → PyStr)
    (g : Option PyStr) (fs : Fs) (p c m : PyStr)
    (h : validate_sandbox_path realpath g p none = .error (.permissionError m)) :
    (write_file realpath g fs p c).2 = fs ∧
    (write_file realpath g fs p c).1 = pystr "Security Error: " ++ m ∧
    (∀ fs2 : Fs, read_file realpath g fs p = read_file realpath g fs2 p) ∧
    read_file realpath g fs p = pystr "Security Error: " ++ m ∧
    (∀ vp : PyStr, (write_file realpath g fs p c).1 ≠
      pystr "Successfully wrote to " ++ vp) := by
  refine ⟨?_, ?_, ?_, ?_, ?_⟩
  · simp [write_file, h]
  · simp [write_file, h]
  · intro fs2
    simp [read_file, h]
  · simp [read_file, h]
  · intro vp heq
    rw [show (write_file realpath g fs p c).1 = pystr "Security Error: " ++ m by
      simp [write_file, h]] at heq
    have h1 : (pystr "Security Error: " ++ m)[1]? = some 'e' := rfl
    rw [heq] at h1
    have h2 : (pystr "Successfully wrote to " ++ vp)[1]? = some 'u' := rfl
    rw [h2] at h1
    exact absurd h1 (by decide)

/-- C5 witness: a write to `/etc/x` under sandbox root `/sb` leaves the file
    system unchanged. -/
theorem sandbox_violation_stops_operation_witness :
    (write_file id (some (pystr "/sb")) [] (pystr "/etc/x") (pystr "c")).2 = [] :=
  (sandbox_violation_stops_operation id (some (pystr "/sb")) [] (pystr "/etc/x")
    (pystr "c") (sandboxViolationMsg (pystr "/etc/x") (pystr "/etc/x") (pystr "/sb"))
    rfl).1

/-- The string `read_file` returns for a sandbox-violating read of
    `/etc/shadow` under sandbox root `/sb`. -/
def violationReadResult : PyStr :=
  read_file id (some (pystr "/sb")) [] (pystr "/etc/shadow")

/-- C5 counterexample: the violation is not surfaced to the caller as an
    error: `read_file` reports it in-band, so a sandbox-violating read and a
    successful in-sandbox read can return the identical string, and the
    `FixerAgent.fix` write step discards `write_file`'s message entirely,
    returning the fixed code exactly as on a successful write while the file
    system is untouched. -/
theorem sandbox_violation_not_surfaced_to_caller :
    read_file id (some (pystr "/sb"))
        [(pystr "/sb/a.py", violationReadResult)] (pystr "/etc/shadow") =
      read_file id (some (pystr "/sb"))
        [(pystr "/sb/a.py", violationReadResult)] (pystr "/sb/a.py") ∧
    fixer_write_fix id (some (pystr "/sb")) [] (pystr "/etc/shadow") (pystr "code") =
      (pystr "code", []) := by
  exact ⟨rfl, rfl⟩

/-- The strengthened invariant for the iteration-budget analysis: the budget
    field is never mutated, and the counter leaves room for the increments
    the pending node will perform. -/
def BudgetInv (m : Nat) : Node × AgentState → Prop
  | (Node.auditor, st) => st.max_iterations = m ∧ st.iterations + 2 ≤ m
  | (Node.fixer, st) => st.max_iterations = m ∧ st.iterations + 1 ≤ m
  | (Node.judge, st) => st.max_iterations = m ∧ st.iterations ≤ m
  | (Node.done, st) => st.max_iterations = m ∧ st.iterations ≤ m

lemma GStep_preserves_BudgetInv (m : Nat) (a b : Node × AgentState)
    (hstep : GStep a b) (hinv : BudgetInv m a) : BudgetInv m b := by
  cases hstep with
  | auditor st r =>
    obtain ⟨h1, h2⟩ := hinv
    exact ⟨h1, by simp only [auditor_node]; omega⟩
  | fixer st c =>
    obtain ⟨h1, h2⟩ := hinv
    exact ⟨h1, by simp only [fixer_node]; omega⟩
  | judge_end st sub h =>
    obtain ⟨h1, h2⟩ := hinv
    exact ⟨h1, h2⟩
  | judge_loop st sub h =>
    obtain ⟨h1, h2⟩ := hinv
    have hlt := check_status_fix_again _ h
    exact ⟨h1, by simp only [judge_node] at hlt ⊢; omega⟩

/-- C1 (amended): for every iteration budget of at least 2, every
    configuration the orchestrator reaches keeps the iteration counter within
    the budget, so no Fix attempt is issued once the counter would exceed it.
    Budget 1 is excluded: the unconditional Analyze and first Fix steps both
    increment the counter, driving it to 2. -/
theorem iterations_le_budget (tf : PyStr) (m : Nat) (hm : 2 ≤ m)
    (n : Node) (st : AgentState)
    (h : GReach (Node.auditor, initState tf m) (n, st)) :
    st.iterations ≤ m := by
  have hinv : ∀ q : Node × AgentState,
      GReach (Node.auditor, initState tf m) q → BudgetInv m q := by
    intro q hq
    induction hq with
    | refl => exact ⟨rfl, by simp only [initState]; omega⟩
    | tail hsteps hstep ih => exact GStep_preserves_BudgetInv m _ _ hstep ih
  have hfin := hinv (n, st) h
  cases n
  · exact le_trans (by omega) hfin.2
  · exact le_trans (Nat.le_succ _) hfin.2
  · exact hfin.2
  · exact hfin.2

/-- C1 witness: with budget 2, the initial configuration satisfies the
    bound. -/
theorem iterations_le_budget_witness :
    (initState (pystr "m.py") 2).iterations ≤ 2 :=
  iterations_le_budget (pystr "m.py") 2 (by decide) Node.auditor
    (initState (pystr "m.py") 2) Relation.ReflTransGen.refl

/-- An analyze result with empty plan and code, used by concrete runs. -/
def auditNull : AuditResult := { plan := [], pylint_score := 0, original_code := [] }

/-- C1 counterexample: with iteration budget 1, the state observed after the
    first (unconditional) Fix step already carries iteration counter 2,
    exceeding the budget: `auditor_node` and `fixer_node` each increment the
    counter before `check_status` is ever consulted. -/
theorem budget_one_exceeded :
    GReach (Node.auditor, initState (pystr "bad.py") 1)
      (Node.judge, fixer_node (auditor_node (initState (pystr "bad.py") 1) auditNull) []) ∧
    (fixer_node (auditor_node (initState (pystr "bad.py") 1) auditNull) []).iterations = 2 ∧
    (fixer_node (auditor_node (initState (pystr "bad.py") 1) auditNull) []).max_iterations = 1 := by
  refine ⟨?_, rfl, rfl⟩
  exact Relation.ReflTransGen.head (GStep.auditor _ auditNull)
    (Relation.ReflTransGen.single (GStep.fixer _ []))

/-- The state reached after Analyze, one Fix, and one Verify. -/
def successRun (tf : PyStr) (m : Nat) (r : AuditResult) (c : PyStr)
    (sub : Option SubprocessResult) : AgentState :=
  judge_node (fixer_node (auditor_node (initState tf m) r) c) sub

/-- C3 (amended): a run whose first Verify reports success terminates at END
    with status `SUCCESS` and iteration counter 2 — not 1 — and no second Fix
    call is issued: the counter is incremented once by the Analyze step and
    once per Fix attempt, and Verify never increments it. -/
theorem first_verify_success_terminates (tf : PyStr) (m : Nat) (r : AuditResult)
    (c : PyStr) (sub : Option SubprocessResult)
    (hs : (run_pytest sub).success = true) :
    GReach (Node.auditor, initState tf m) (Node.done, successRun tf m r c sub) ∧
    (successRun tf m r c sub).status = pystr "SUCCESS" ∧
    (successRun tf m r c sub).iterations = 2 ∧
    (∀ q, ¬ GStep (Node.done, successRun tf m r c sub) q) ∧
    (∀ st r2, (auditor_node st r2).iterations = st.iterations + 1) ∧
    (∀ st c2, (fixer_node st c2).iterations = st.iterations + 1) ∧
    (∀ st sub2, (judge_node st sub2).iterations = st.iterations) := by
  have hsucc : (evaluate sub).success = true := by rw [evaluate_success]; exact hs
  have hstatus : (successRun tf m r c sub).status = pystr "SUCCESS" := by
    simp [successRun, judge_node, hsucc]
  refine ⟨?_, hstatus, rfl, ?_, fun st r2 => rfl, fun st c2 => rfl, fun st sub2 => rfl⟩
  · refine Relation.ReflTransGen.head (GStep.auditor _ r)
      (Relation.ReflTransGen.head (GStep.fixer _ c)
        (Relation.ReflTransGen.single (GStep.judge_end _ sub ?_)))
    have : (judge_node (fixer_node (auditor_node (initState tf m) r) c) sub).status =
        pystr "SUCCESS" := hstatus
    rw [check_status, if_pos (by rw [this]; rfl)]
  · intro q hq
    cases hq

/-- C3 witness: a concrete run whose first Verify succeeds ends at END with
    status `SUCCESS` and iteration counter 2. -/
theorem first_verify_success_terminates_witness :
    (successRun (pystr "ok.py") 10 auditNull [] (some ⟨0, pystr "1 passed", []⟩)).status =
      pystr "SUCCESS" ∧
    (successRun (pystr "ok.py") 10 auditNull [] (some ⟨0, pystr "1 passed", []⟩)).iterations = 2 := by
  have h := first_verify_success_terminates (pystr "ok.py") 10 auditNull []
    (some ⟨0, pystr "1 passed", []⟩) (by decide)
  exact ⟨h.2.1, h.2.2.1⟩

/-- C3 counterexample: a concrete run whose first Verify succeeds ends with
    iteration counter 2, not 1, because the Analyze step already incremented
    the counter once before the single Fix attempt. -/
theorem first_verify_success_counter_not_one :
    GReach (Node.auditor, initState (pystr "one.py") 10)
      (Node.done, successRun (pystr "one.py") 10 auditNull []
        (some ⟨0, pystr "2 passed in 0.01s", []⟩)) ∧
    (successRun (pystr "one.py") 10 auditNull []
      (some ⟨0, pystr "2 passed in 0.01s", []⟩)).iterations = 2 ∧
    (successRun (pystr "one.py") 10 auditNull []
      (some ⟨0, pystr "2 passed in 0.01s", []⟩)).iterations ≠ 1 := by
  refine ⟨?_, rfl, by decide⟩
  exact Relation.ReflTransGen.head (GStep.auditor _ auditNull)
    (Relation.ReflTransGen.head (GStep.fixer _ [])
      (Relation.ReflTransGen.single (GStep.judge_end _ _ (by decide))))

/-- A pytest subprocess whose output carries the "command not found"
    infrastructure signature. -/
def subCNF : SubprocessResult :=
  { returncode := 1, stdout := pystr "sh: pytest: command not found", stderr := [] }

/-- The state after Analyze and the first Fix of a budget-10 run. -/
def stTwo : AgentState :=
  fixer_node (auditor_node (initState (pystr "env.py") 10) auditNull) []

/-- C2 evidence: a first Verify step classified `ENVIRONMENT_ERROR` does not
    end the task — `check_status` ignores the classification and routes back
    to the fixer, so another Fix attempt is issued, the status is `FAILURE`
    (no `ENVIRONMENT_ABORTED` status exists in the graph), and a
    `TimeoutExpired` first attempt is not even classified `TIMEOUT`: the
    classifier sees the lowercase "timed out" message and yields
    `CODE_ERROR`. -/
theorem environment_error_not_terminal :
    (evaluate (some subCNF)).error_type = some (pystr "ENVIRONMENT_ERROR") ∧
    (judge_node stTwo (some subCNF)).status = pystr "FAILURE" ∧
    check_status (judge_node stTwo (some subCNF)) = pystr "fix_again" ∧
    GStep (Node.judge, stTwo) (Node.fixer, judge_node stTwo (some subCNF)) ∧
    (evaluate none).error_type = some (pystr "CODE_ERROR") := by
  refine ⟨by decide, rfl, by decide, ?_, by decide⟩
  exact GStep.judge_loop _ _ (by decide)

/-- C8 (amended): the failure context is cleared whenever Analyze produces a
    fresh plan, preserved by Fix, and populated by Verify on every failure
    regardless of classification (hence also on environment and timeout
    failures), holding exactly the raw pytest output; it is cleared again on
    a successful Verify. -/
theorem error_context_lifecycle (st : AgentState) (r : AuditResult) (c : PyStr)
    (sub : Option SubprocessResult) :
    (auditor_node st r).error_context = none ∧
    (fixer_node st c).error_context = st.error_context ∧
    ((evaluate sub).success = false →
      (judge_node st sub).error_context = some (run_pytest sub).output) ∧
    ((evaluate sub).success = true →
      (judge_node st sub).error_context = none) := by
  refine ⟨rfl, rfl, ?_, ?_⟩ <;> intro h <;>
    simp [judge_node, h, evaluate_output]

/-- C8 witness: after a failing Verify, the failure context holds the raw
    pytest output. -/
theorem error_context_lifecycle_witness :
    (judge_node stTwo (some subCNF)).error_context =
      some (run_pytest (some subCNF)).output :=
  (error_context_lifecycle stTwo auditNull [] (some subCNF)).2.2.1 (by decide)

/-- C8 counterexample: a Verify failure that the classifier labels
    `ENVIRONMENT_ERROR` still populates the failure context that the
    conditional edge carries into the next Fix attempt. -/
theorem error_context_populated_on_env_error :
    (evaluate (some subCNF)).error_type = some (pystr "ENVIRONMENT_ERROR") ∧
    (judge_node stTwo (some subCNF)).error_context ≠ none ∧
    check_status (judge_node stTwo (some subCNF)) = pystr "fix_again" := by
  refine ⟨by decide, by decide, by decide⟩

end RefactoringSwarm
